import Mathlib

/-!
Shallow embedding of the two release-verification scripts of
Plex-Show-Subtitles-On-Rewind (`scripts/verify_build.py` and
`scripts/verify_docker.py`), together with theorems settling the
specification claims about them.

External effects (subprocess results, filesystem contents, container logs)
are modelled as explicit inputs (a "world" record); the scripts' control
flow is translated function by function from the Python source.
-/

namespace VerifyBuild

/-- Python `needle in hay` on strings: substring containment. -/
def strContains (hay needle : String) : Bool :=
  (List.range (hay.length + 1)).any (fun i => needle.toList.isPrefixOf (hay.toList.drop i))

/-- Python `s.startswith(pre)`, character-list based. -/
def strStartsWith (s pre : String) : Bool :=
  pre.toList.isPrefixOf s.toList

/-- Python `s.endswith(suf)`, character-list based. -/
def strEndsWith (s suf : String) : Bool :=
  suf.toList.isSuffixOf s.toList

/-- `os.path.join` for the cases these scripts exercise (relative second arg). -/
def pjoin (d n : String) : String :=
  if d = "" then n else if strEndsWith d "/" then d ++ n else d ++ "/" ++ n

/-- The product's fixed identifier string used to locate the built binary. -/
def IDENT : String := "RewindSubtitleDisplayerForPlex"

/-- `MIN_FILE_SIZE = 1000000` from verify_build.py. -/
def MIN_FILE_SIZE : Nat := 1000000

/-- `PLATFORMS = ["win-x64", "linux-x64", "osx-x64"]` from verify_build.py. -/
def PLATFORMS : List String := ["win-x64", "linux-x64", "osx-x64"]

/-- What the script observes about one file: `os.path.isfile`,
`os.path.getsize`, `os.access(_, os.X_OK)`. -/
structure FileView where
  isfile : Bool
  size : Nat
  execBit : Bool
deriving DecidableEq, Repr

/-- `check_executable(file_path, platform_name)` from verify_build.py:
fail if not a file, fail if size < MIN_FILE_SIZE, fail if non-win-x64 and
no executable bit, otherwise pass. -/
def check_executable (f : FileView) (platform_name : String) : Bool :=
  if !f.isfile then false
  else if f.size < MIN_FILE_SIZE then false
  else if platform_name ≠ "win-x64" && !f.execBit then false
  else true

/-- What the script observes about a publish directory:
the top-level listing (for `glob`), the `os.walk` yield (root, files
pairs, in yield order), and the `os.access(_, os.X_OK)` predicate on paths. -/
structure DirContents where
  listing : List String
  walk : List (String × List String)
  access : String → Bool

/-- `glob.glob(os.path.join(directory, "*.exe"))` restricted to the names:
non-hidden entries of the listing ending in `.exe`, in listing order. -/
def globExe (listing : List String) : List String :=
  listing.filter (fun n => !strStartsWith n "." && strEndsWith n ".exe")

/-- `find_executable(directory, platform)` from verify_build.py.
For win-x64: first glob match of `*.exe` whose full path contains IDENT.
Otherwise: first file in walk order whose name contains IDENT and whose
path has the executable bit. -/
def find_executable (directory : String) (d : DirContents) (platform : String) :
    Option String :=
  if platform = "win-x64" then
    ((globExe d.listing).map (pjoin directory)).find? (fun f => strContains f IDENT)
  else
    (d.walk.flatMap (fun rf =>
      (rf.2.filter (fun file => strContains file IDENT)).filterMap (fun file =>
        let p := pjoin rf.1 file
        if d.access p then some p else none))).head?

/-- External-world inputs of one `build_for_platform` run:
whether `dotnet publish` succeeds, the publish directory contents, and the
stat of the located source binary. -/
structure BuildWorld where
  buildOk : String → Bool
  contents : String → DirContents
  stat : String → FileView

/-- Observable outcome of `build_for_platform`. -/
structure BuildStepResult where
  ok : Bool
  chmodApplied : Bool
  copiedTo : Option String
  listedPublishDir : Bool
deriving Repr

/-- Target filename built at verify_build.py line 127:
`RewindSubtitleDisplayerForPlex_{version}_{platform}{ext}` with
`ext = ".exe"` exactly for win-x64. -/
def targetFileName (version platform_name : String) : String :=
  IDENT ++ "_" ++ version ++ "_" ++ platform_name ++
    (if platform_name = "win-x64" then ".exe" else "")

/-- `build_for_platform(platform_name, version, build_dir, assets_dir)` from
verify_build.py: run the build; locate the executable (hard failure with a
directory listing when absent); copy it to the assets dir under the
versioned name (`copy2` preserves the source's mode); chmod 0o755 on
non-win-x64; then `check_executable` on the copy. -/
def build_for_platform (w : BuildWorld) (platform_name version build_dir assets_dir : String) :
    BuildStepResult :=
  if !w.buildOk platform_name then
    { ok := false, chmodApplied := false, copiedTo := none, listedPublishDir := false }
  else
    let publish_dir := pjoin (pjoin build_dir platform_name) "publish"
    match find_executable publish_dir (w.contents platform_name) platform_name with
    | none =>
        { ok := false, chmodApplied := false, copiedTo := none, listedPublishDir := true }
    | some executable =>
        let target_file := pjoin assets_dir (targetFileName version platform_name)
        let src := w.stat executable
        let chmod := platform_name ≠ "win-x64"
        let copied : FileView :=
          { isfile := true, size := src.size,
            execBit := if chmod then true else src.execBit }
        { ok := check_executable copied platform_name,
          chmodApplied := chmod,
          copiedTo := some target_file,
          listedPublishDir := false }

/-- The per-platform loop of `main` (verify_build.py lines 154-160):
accumulates the success flag, the platforms actually attempted, and the
unknown-platform warnings, in order. -/
def mainLoop (w : BuildWorld) (version build_dir assets_dir : String) :
    List String → Bool × List String × List String
  | [] => (true, [], [])
  | p :: rest =>
      let warned := decide (p ∉ PLATFORMS)
      let r := build_for_platform w p version build_dir assets_dir
      let (s, att, ws) := mainLoop w version build_dir assets_dir rest
      (r.ok && s, p :: att, (if warned then [p] else []) ++ ws)

/-- `main()` of verify_build.py: exit code 0 when every platform's
`build_for_platform` succeeded, else 1. -/
def buildMain (w : BuildWorld) (version build_dir assets_dir : String)
    (platforms : List String) : Nat :=
  if (mainLoop w version build_dir assets_dir platforms).1 then 0 else 1

end VerifyBuild

namespace VerifyDocker

open VerifyBuild (strContains)

/-- How a run of the docker pipeline can abort: `sys.exit(code)` raises
SystemExit (not caught by `except Exception`), any other Python exception
is caught by `except Exception` in `main`. -/
inductive PyExit where
  | sysExit (code : Nat)
  | exception
deriving DecidableEq, Repr

/-- Observable events of one verify_docker.py run, in order. -/
inductive Ev where
  | checkInfo
  | startDaemon
  | sleepDelay
  | pull
  | inspect
  | runContainer
  | logsFetch
  | warn (pattern : String)
  | cleanupCalled
  | stopCmd
  | rmCmd
  | keepMsg
deriving DecidableEq, Repr

/-- External-world inputs of one verify_docker.py run: results of each
subprocess invocation and the container's log text. -/
structure DockerWorld where
  infoFirst : Bool
  infoSecond : Bool
  pullOk : Bool
  inspectCmdOk : Bool
  inspectParseOk : Bool
  inspectInfo : List String
  runOk : Bool
  containerId : String
  logsCmdOk : Bool
  logs : String

/-- `check_docker_running()` (verify_docker.py lines 52-69): `docker info`;
on failure start the daemon, sleep, re-check once; `sys.exit(1)` if still
failing. -/
def check_docker_running (w : DockerWorld) : Except PyExit Unit × List Ev :=
  if w.infoFirst then (.ok (), [.checkInfo])
  else if w.infoSecond then (.ok (), [.checkInfo, .startDaemon, .sleepDelay, .checkInfo])
  else (.error (.sysExit 1), [.checkInfo, .startDaemon, .sleepDelay, .checkInfo])

/-- `pull_docker_image(image_name)` (lines 72-76): `docker pull` with
`check=True`, so a non-zero exit becomes `sys.exit(1)` inside
`run_command`. -/
def pull_docker_image (w : DockerWorld) : Except PyExit Unit × List Ev :=
  (if w.pullOk then .ok () else .error (.sysExit 1), [.pull])

/-- `inspect_docker_image(image_name)` (lines 79-104): `docker inspect`
with `check=True` (failure → `sys.exit(1)`); `json.loads` may raise an
ordinary exception; an empty parsed list → `sys.exit(1)`. -/
def inspect_docker_image (w : DockerWorld) : Except PyExit (List String) × List Ev :=
  if !w.inspectCmdOk then (.error (.sysExit 1), [.inspect])
  else if !w.inspectParseOk then (.error .exception, [.inspect])
  else if w.inspectInfo.isEmpty then (.error (.sysExit 1), [.inspect])
  else (.ok w.inspectInfo, [.inspect])

/-- `run_docker_container(...)` (lines 107-128): force-remove any old
container (`check=False`, never fatal), then `docker run -d` with
`check=True`. -/
def run_docker_container (w : DockerWorld) : Except PyExit String × List Ev :=
  (if w.runOk then .ok w.containerId else .error (.sysExit 1), [.runContainer])

/-- `error_patterns` of `check_container_logs` (lines 146-148). -/
def error_patterns : List String :=
  ["Error:", "Exception:", "Failed:", "Could not", "Unhandled exception"]

/-- `check_container_logs(container_name)` (lines 131-154): fetch logs with
`check=True`, then print a warning for each error pattern found; the scan
only prints, it returns the logs unchanged. -/
def check_container_logs (w : DockerWorld) : Except PyExit String × List Ev :=
  if w.logsCmdOk then
    (.ok w.logs,
     .logsFetch :: (error_patterns.filter (fun p => strContains w.logs p)).map .warn)
  else (.error (.sysExit 1), [.logsFetch])

/-- `cleanup(container_name, config_dir, keep_container)` (lines 157-166):
stop and remove the container (both `check=False`) unless the keep flag is
set. -/
def cleanup (keep_container : Bool) : List Ev :=
  .cleanupCalled :: (if keep_container then [.keepMsg] else [.stopCmd, .rmCmd])

/-- The `try` body of `main()` (verify_docker.py lines 188-205):
readiness, pull, inspect, run, log scan, in that order, stopping at the
first abort. -/
def tryBody (w : DockerWorld) : Except PyExit Nat × List Ev :=
  match (check_docker_running w).1 with
  | .error ex => (.error ex, (check_docker_running w).2)
  | .ok _ =>
    match (pull_docker_image w).1 with
    | .error ex => (.error ex, (check_docker_running w).2 ++ (pull_docker_image w).2)
    | .ok _ =>
      match (inspect_docker_image w).1 with
      | .error ex =>
          (.error ex, (check_docker_running w).2 ++ (pull_docker_image w).2 ++
            (inspect_docker_image w).2)
      | .ok _ =>
        match (run_docker_container w).1 with
        | .error ex =>
            (.error ex, (check_docker_running w).2 ++ (pull_docker_image w).2 ++
              (inspect_docker_image w).2 ++ (run_docker_container w).2)
        | .ok _ =>
          match (check_container_logs w).1 with
          | .error ex =>
              (.error ex, (check_docker_running w).2 ++ (pull_docker_image w).2 ++
                (inspect_docker_image w).2 ++ (run_docker_container w).2 ++
                (check_container_logs w).2)
          | .ok _ =>
              (.ok 0, (check_docker_running w).2 ++ (pull_docker_image w).2 ++
                (inspect_docker_image w).2 ++ (run_docker_container w).2 ++
                (check_container_logs w).2)

/-- `main()` of verify_docker.py (lines 188-211) as observed by the OS:
the try body, `except Exception: return 1` (SystemExit is not an
`Exception` and propagates), and the `finally: cleanup(...)` which runs on
every path. Returns the process exit code and the event trace. -/
def dockerMain (w : DockerWorld) (keep_container : Bool) : Nat × List Ev :=
  (match (tryBody w).1 with
   | .ok n => n
   | .error (.sysExit c) => c
   | .error .exception => 1,
   (tryBody w).2 ++ cleanup keep_container)

end VerifyDocker

namespace VerifyBuild

/-! ### Helper lemmas and concrete worlds -/

/-- A world whose builds succeed trivially, with an empty publish dir. -/
def emptyWorld : BuildWorld :=
  { buildOk := fun _ => true,
    contents := fun _ => { listing := [], walk := [], access := fun _ => false },
    stat := fun _ => { isfile := true, size := 0, execBit := false } }

/-- A world where win-x64 finds a healthy binary in the publish dir. -/
def winWorld : BuildWorld :=
  { buildOk := fun _ => true,
    contents := fun _ =>
      { listing := ["RewindSubtitleDisplayerForPlex.exe"],
        walk := [], access := fun _ => true },
    stat := fun _ => { isfile := true, size := 2000000, execBit := false } }

theorem mainLoop_eq (w : BuildWorld) (v bd ad : String) (ps : List String) :
    mainLoop w v bd ad ps =
      (ps.all (fun p => (build_for_platform w p v bd ad).ok), ps,
       ps.filter (fun p => decide (p ∉ PLATFORMS))) := by
  induction ps with
  | nil => rfl
  | cons p rest ih =>
      simp only [mainLoop, ih, List.all_cons, List.filter_cons]
      by_cases h : p ∈ PLATFORMS <;> simp [h]

theorem build_for_platform_chmodApplied (w : BuildWorld) (p v bd ad : String) :
    (build_for_platform w p v bd ad).chmodApplied =
      (w.buildOk p &&
       (find_executable (pjoin (pjoin bd p) "publish") (w.contents p) p).isSome &&
       decide (p ≠ "win-x64")) := by
  unfold build_for_platform
  by_cases g : w.buildOk p
  · cases hf : find_executable (pjoin (pjoin bd p) "publish") (w.contents p) p <;>
      simp [g, hf]
  · simp [g]

/-! ### Claims about the build verifier -/

/-- C4 (amended): `check_executable` succeeds iff the file exists, its size
is at least the 1000000-byte threshold, and — for every platform other
than win-x64 — it carries the executable bit. -/
theorem C4_check_executable_iff (f : FileView) (p : String) :
    check_executable f p = true ↔
      f.isfile = true ∧ MIN_FILE_SIZE ≤ f.size ∧
        (p ≠ "win-x64" → f.execBit = true) := by
  unfold check_executable
  split_ifs with h1 h2 h3 <;> simp_all

/-- C4 witness: a concrete large executable file passes on linux-x64. -/
theorem C4_check_executable_iff_witness :
    check_executable ⟨true, 1000000, true⟩ "linux-x64" = true :=
  (C4_check_executable_iff ⟨true, 1000000, true⟩ "linux-x64").mpr
    ⟨rfl, by decide, fun _ => rfl⟩

/-- C4 counterexample: a file of size exactly 1000000 bytes passes
`check_executable`, yet its size does not exceed the threshold: the code
tests `size < MIN_FILE_SIZE`, not `size ≤ MIN_FILE_SIZE`. -/
theorem C4_counterexample :
    check_executable ⟨true, 1000000, true⟩ "linux-x64" = true ∧
      ¬ 1000000 > MIN_FILE_SIZE := by
  constructor
  · decide
  · decide

/-- C10: win-x64 never has its executable bit examined or set:
`check_executable` passes any existing, large-enough win-x64 file whatever
its bit, and `build_for_platform` applies the chmod step exactly to
platforms other than win-x64. -/
theorem C10_win_no_exec_bit :
    (∀ (f : FileView), f.isfile = true → MIN_FILE_SIZE ≤ f.size →
       check_executable f "win-x64" = true) ∧
    (∀ (w : BuildWorld) (v bd ad : String),
       (build_for_platform w "win-x64" v bd ad).chmodApplied = false) ∧
    (∀ (w : BuildWorld) (p v bd ad : String),
       (build_for_platform w p v bd ad).chmodApplied = true → p ≠ "win-x64") := by
  refine ⟨fun f h1 h2 => ?_, fun w v bd ad => ?_, fun w p v bd ad h => ?_⟩
  · unfold check_executable
    split_ifs with g1 g2 g3 <;> simp_all
    omega
  · simp [build_for_platform_chmodApplied]
  · rw [build_for_platform_chmodApplied] at h
    simp only [Bool.and_eq_true, decide_eq_true_eq] at h
    exact h.2

/-- C10 witness: a win-x64 file without the executable bit still passes,
and a concrete win-x64 build run applies no chmod. -/
theorem C10_win_no_exec_bit_witness :
    check_executable ⟨true, 1000000, false⟩ "win-x64" = true ∧
    (build_for_platform winWorld "win-x64" "1.2.3" "b" "a").chmodApplied = false :=
  ⟨C10_win_no_exec_bit.1 ⟨true, 1000000, false⟩ rfl (by decide),
   C10_win_no_exec_bit.2.1 winWorld "1.2.3" "b" "a"⟩

/-- C9: the copy target name embeds product name, version and platform,
with `.exe` appended exactly for win-x64; in particular version 1.2.3
yields `RewindSubtitleDisplayerForPlex_1.2.3_win-x64.exe` and
`RewindSubtitleDisplayerForPlex_1.2.3_linux-x64`, and whenever the binary
is located, `build_for_platform` copies it to that name under the assets
directory. -/
theorem C9_target_names :
    targetFileName "1.2.3" "win-x64" = "RewindSubtitleDisplayerForPlex_1.2.3_win-x64.exe" ∧
    targetFileName "1.2.3" "linux-x64" = "RewindSubtitleDisplayerForPlex_1.2.3_linux-x64" ∧
    (∀ (v p : String), targetFileName v p =
       "RewindSubtitleDisplayerForPlex_" ++ v ++ "_" ++ p ++
         (if p = "win-x64" then ".exe" else "")) ∧
    (∀ (w : BuildWorld) (p v bd ad e : String),
       w.buildOk p = true →
       find_executable (pjoin (pjoin bd p) "publish") (w.contents p) p = some e →
       (build_for_platform w p v bd ad).copiedTo =
         some (pjoin ad (targetFileName v p))) := by
  refine ⟨rfl, rfl, fun v p => ?_, fun w p v bd ad e hb hf => ?_⟩
  · unfold targetFileName IDENT
    simp [String.append_assoc]
  · unfold build_for_platform
    simp [hb, hf]

/-- C1: for a non-empty platform list, the build verifier exits 0 iff
`build_for_platform` succeeded on every requested platform, exits non-zero
iff at least one failed, and every requested platform is processed (a
failure does not stop the loop). -/
theorem C1_exit_code_iff (w : BuildWorld) (v bd ad : String) (ps : List String)
    (_hne : ps ≠ []) :
    (buildMain w v bd ad ps = 0 ↔
       ∀ p ∈ ps, (build_for_platform w p v bd ad).ok = true) ∧
    (buildMain w v bd ad ps ≠ 0 ↔
       ∃ p ∈ ps, (build_for_platform w p v bd ad).ok = false) ∧
    (mainLoop w v bd ad ps).2.1 = ps := by
  have hm := mainLoop_eq w v bd ad ps
  refine ⟨?_, ?_, by rw [hm]⟩ <;>
    · unfold buildMain
      rw [hm]
      by_cases h : ps.all (fun p => (build_for_platform w p v bd ad).ok) <;>
        simp_all [List.all_eq_true]

/-- C1 witness: a single healthy win-x64 platform gives exit code 0. -/
theorem C1_exit_code_iff_witness :
    buildMain winWorld "1.2.3" "b" "a" ["win-x64"] = 0 :=
  (C1_exit_code_iff winWorld "1.2.3" "b" "a" ["win-x64"] (by decide)).1.mpr
    (by decide)

/-- C6: a requested platform outside the known set is warned about, is still
attempted, and its result participates in the aggregate conjunction like
any other platform. -/
theorem C6_unknown_platform_attempted (w : BuildWorld) (v bd ad : String)
    (ps : List String) (p : String) (hp : p ∈ ps) (hup : p ∉ PLATFORMS) :
    p ∈ (mainLoop w v bd ad ps).2.2 ∧
    p ∈ (mainLoop w v bd ad ps).2.1 ∧
    (buildMain w v bd ad ps = 0 ↔
       ∀ q ∈ ps, (build_for_platform w q v bd ad).ok = true) := by
  have hm := mainLoop_eq w v bd ad ps
  refine ⟨?_, by rw [hm]; exact hp, ?_⟩
  · rw [hm]
    simp [List.mem_filter, hp, hup]
  · unfold buildMain
    rw [hm]
    by_cases h : ps.all (fun q => (build_for_platform w q v bd ad).ok) <;>
      simp_all [List.all_eq_true]

/-- C6 witness: the unknown platform "foo" is warned about and attempted. -/
theorem C6_unknown_platform_attempted_witness :
    "foo" ∈ (mainLoop winWorld "1.2.3" "b" "a" ["foo"]).2.2 ∧
    "foo" ∈ (mainLoop winWorld "1.2.3" "b" "a" ["foo"]).2.1 :=
  ⟨(C6_unknown_platform_attempted winWorld "1.2.3" "b" "a" ["foo"] "foo"
      (by decide) (by decide)).1,
   (C6_unknown_platform_attempted winWorld "1.2.3" "b" "a" ["foo"] "foo"
      (by decide) (by decide)).2.1⟩

/-- C9 witness: a concrete win-x64 run copies to the expected asset path. -/
theorem C9_target_names_witness :
    (build_for_platform winWorld "win-x64" "1.2.3" "b" "a").copiedTo =
      some "a/RewindSubtitleDisplayerForPlex_1.2.3_win-x64.exe" :=
  (C9_target_names.2.2.2 winWorld "win-x64" "1.2.3" "b" "a"
      "b/win-x64/publish/RewindSubtitleDisplayerForPlex.exe" rfl (by decide)).trans
    (by rfl)

/-- Publish directory used in the C7 counterexample: the directory path
contains the product identifier, the contained file's name does not. -/
def cexDir : DirContents :=
  { listing := ["app.exe"], walk := [], access := fun _ => false }

/-- C7 counterexample: when the publish directory's own path contains the
identifier, the win-x64 branch returns a `.exe` file whose *name* does not
contain the identifier — the code tests the identifier against the full
glob path, not the file name. -/
theorem C7_counterexample :
    find_executable "RewindSubtitleDisplayerForPlex" cexDir "win-x64" =
      some "RewindSubtitleDisplayerForPlex/app.exe" ∧
    strContains "app.exe" IDENT = false := by
  constructor
  · decide
  · decide

/-- C7 (amended): `find_executable` for win-x64 returns a non-hidden `.exe`
entry of the publish directory whose full joined path contains the
identifier (and `none` exactly when no such entry exists); for any other
platform it returns a file of the walked tree whose name contains the
identifier and whose path has the executable bit (and `none` exactly when
none exists); and `build_for_platform` treats `none` as a hard failure
with a diagnostic listing of the publish directory. -/
theorem C7_find_executable_spec (directory : String) (d : DirContents) :
    (∀ f, find_executable directory d "win-x64" = some f →
       ∃ n ∈ globExe d.listing, f = pjoin directory n ∧
         strContains f IDENT = true) ∧
    (find_executable directory d "win-x64" = none ↔
       ∀ n ∈ globExe d.listing, strContains (pjoin directory n) IDENT = false) ∧
    (∀ p, p ≠ "win-x64" → ∀ f, find_executable directory d p = some f →
       ∃ rf ∈ d.walk, ∃ n ∈ rf.2, strContains n IDENT = true ∧
         f = pjoin rf.1 n ∧ d.access f = true) ∧
    (∀ p, p ≠ "win-x64" → (find_executable directory d p = none ↔
       ∀ rf ∈ d.walk, ∀ n ∈ rf.2, strContains n IDENT = true →
         d.access (pjoin rf.1 n) = false)) ∧
    (∀ (w : BuildWorld) (p v bd ad : String), w.buildOk p = true →
       find_executable (pjoin (pjoin bd p) "publish") (w.contents p) p = none →
       (build_for_platform w p v bd ad).ok = false ∧
       (build_for_platform w p v bd ad).listedPublishDir = true) := by
  refine ⟨fun f hf => ?_, ?_, fun p hp f hf => ?_, fun p hp => ?_,
          fun w p v bd ad hb hf => ?_⟩
  · unfold find_executable at hf
    rw [if_pos rfl] at hf
    have h1 := List.find?_some hf
    have h2 := List.mem_of_find?_eq_some hf
    rcases List.mem_map.mp h2 with ⟨n, hn, rfl⟩
    exact ⟨n, hn, rfl, h1⟩
  · unfold find_executable
    rw [if_pos rfl, List.find?_eq_none]
    simp [List.mem_map]
  · unfold find_executable at hf
    rw [if_neg hp] at hf
    have hmem : f ∈ d.walk.flatMap (fun rf =>
        (rf.2.filter (fun file => strContains file IDENT)).filterMap (fun file =>
          let q := pjoin rf.1 file
          if d.access q then some q else none)) := by
      cases hl : d.walk.flatMap (fun rf =>
          (rf.2.filter (fun file => strContains file IDENT)).filterMap (fun file =>
            let q := pjoin rf.1 file
            if d.access q then some q else none)) with
      | nil => rw [hl] at hf; simp at hf
      | cons a t => rw [hl] at hf; simp at hf; subst hf; exact List.mem_cons_self a t
    rcases List.mem_flatMap.mp hmem with ⟨rf, hrf, hin⟩
    rcases List.mem_filterMap.mp hin with ⟨n, hn, hg⟩
    rcases List.mem_filter.mp hn with ⟨hn2, hcont⟩
    simp only at hg
    by_cases ha : d.access (pjoin rf.1 n)
    · rw [if_pos ha] at hg
      have hfe : f = pjoin rf.1 n := (Option.some.injEq _ _ ▸ hg).symm
      exact ⟨rf, hrf, n, hn2, hcont, hfe, hfe ▸ ha⟩
    · rw [if_neg ha] at hg
      exact absurd hg (by simp)
  · unfold find_executable
    rw [if_neg hp, List.head?_eq_none_iff, List.flatMap_eq_nil_iff]
    constructor
    · intro h rf hrf n hn hcont
      have := h rf hrf
      rw [List.filterMap_eq_nil_iff] at this
      have hg := this n (List.mem_filter.mpr ⟨hn, hcont⟩)
      simp only at hg
      by_cases ha : d.access (pjoin rf.1 n)
      · rw [if_pos ha] at hg; exact absurd hg (by simp)
      · simpa using ha
    · intro h rf hrf
      rw [List.filterMap_eq_nil_iff]
      intro n hn
      rcases List.mem_filter.mp hn with ⟨hn2, hcont⟩
      have := h rf hrf n hn2 hcont
      simp [this]
  · unfold build_for_platform
    simp [hb, hf]

/-- C7 witness: an empty publish directory yields a hard failure with the
diagnostic listing. -/
theorem C7_find_executable_spec_witness :
    (build_for_platform emptyWorld "win-x64" "v" "b" "a").ok = false ∧
    (build_for_platform emptyWorld "win-x64" "v" "b" "a").listedPublishDir = true :=
  (C7_find_executable_spec "" cexDir).2.2.2.2 emptyWorld "win-x64" "v" "b" "a"
    rfl (by decide)

end VerifyBuild

namespace VerifyDocker

open VerifyBuild (strContains)

/-! ### Helper lemmas and concrete worlds for the container verifier -/

/-- A fully healthy run whose logs contain "Unhandled exception". -/
def okWorld : DockerWorld :=
  { infoFirst := true, infoSecond := true, pullOk := true, inspectCmdOk := true,
    inspectParseOk := true, inspectInfo := ["img"], runOk := true,
    containerId := "cid", logsCmdOk := true,
    logs := "Unhandled exception: boom" }

/-- A run where the container runtime never comes up. -/
def downWorld : DockerWorld :=
  { infoFirst := false, infoSecond := false, pullOk := true, inspectCmdOk := true,
    inspectParseOk := true, inspectInfo := ["img"], runOk := true,
    containerId := "cid", logsCmdOk := true, logs := "" }

/-- A run where the image pull fails. -/
def pullFailWorld : DockerWorld :=
  { infoFirst := true, infoSecond := true, pullOk := false, inspectCmdOk := true,
    inspectParseOk := true, inspectInfo := ["img"], runOk := true,
    containerId := "cid", logsCmdOk := true, logs := "" }

/-- A run where `docker inspect` parses to an empty list. -/
def emptyInspectWorld : DockerWorld :=
  { infoFirst := true, infoSecond := true, pullOk := true, inspectCmdOk := true,
    inspectParseOk := true, inspectInfo := [], runOk := true,
    containerId := "cid", logsCmdOk := true, logs := "" }

/-- An event emitted by a pipeline stage (never by `cleanup`). -/
def stageEv (e : Ev) : Prop :=
  e = Ev.checkInfo ∨ e = Ev.startDaemon ∨ e = Ev.sleepDelay ∨ e = Ev.pull ∨
  e = Ev.inspect ∨ e = Ev.runContainer ∨ e = Ev.logsFetch ∨ ∃ p, e = Ev.warn p

theorem check_docker_running_events (w : DockerWorld) :
    ∀ e ∈ (check_docker_running w).2, stageEv e := by
  unfold check_docker_running
  split_ifs <;> intro e he <;> simp at he <;> simp [stageEv] <;> tauto

theorem pull_docker_image_events (w : DockerWorld) :
    (pull_docker_image w).2 = [Ev.pull] := rfl

theorem inspect_docker_image_events (w : DockerWorld) :
    (inspect_docker_image w).2 = [Ev.inspect] := by
  unfold inspect_docker_image
  split_ifs <;> rfl

theorem run_docker_container_events (w : DockerWorld) :
    (run_docker_container w).2 = [Ev.runContainer] := rfl

theorem check_container_logs_events (w : DockerWorld) :
    ∀ e ∈ (check_container_logs w).2, stageEv e := by
  unfold check_container_logs stageEv
  split_ifs <;> intro e he <;> simp [List.mem_map] at he
  · rcases he with h | ⟨p, _, h⟩
    · simp [h]
    · subst h
      simp
  · simp [he]

theorem tryBody_events (w : DockerWorld) :
    ∀ e ∈ (tryBody w).2, stageEv e := by
  have h1 := check_docker_running_events w
  have h5 := check_container_logs_events w
  unfold tryBody
  cases (check_docker_running w).1 with
  | error ex => exact h1
  | ok u =>
    cases (pull_docker_image w).1 with
    | error ex =>
        intro e he
        rcases List.mem_append.mp he with h | h
        · exact h1 e h
        · rw [pull_docker_image_events] at h
          simp at h
          simp [stageEv, h]
    | ok u2 =>
      cases (inspect_docker_image w).1 with
      | error ex =>
          intro e he
          rcases List.mem_append.mp he with h | h
          · rcases List.mem_append.mp h with h' | h'
            · exact h1 e h'
            · rw [pull_docker_image_events] at h'
              simp at h'
              simp [stageEv, h']
          · rw [inspect_docker_image_events] at h
            simp at h
            simp [stageEv, h]
      | ok u3 =>
        cases (run_docker_container w).1 with
        | error ex =>
            intro e he
            rcases List.mem_append.mp he with h | h
            · rcases List.mem_append.mp h with h' | h'
              · rcases List.mem_append.mp h' with h'' | h''
                · exact h1 e h''
                · rw [pull_docker_image_events] at h''
                  simp at h''
                  simp [stageEv, h'']
              · rw [inspect_docker_image_events] at h'
                simp at h'
                simp [stageEv, h']
            · rw [run_docker_container_events] at h
              simp at h
              simp [stageEv, h]
        | ok u4 =>
          cases (check_container_logs w).1 with
          | error ex =>
              intro e he
              rcases List.mem_append.mp he with h | h
              · rcases List.mem_append.mp h with h' | h'
                · rcases List.mem_append.mp h' with h'' | h''
                  · rcases List.mem_append.mp h'' with h3 | h3
                    · exact h1 e h3
                    · rw [pull_docker_image_events] at h3
                      simp at h3
                      simp [stageEv, h3]
                  · rw [inspect_docker_image_events] at h''
                    simp at h''
                    simp [stageEv, h'']
                · rw [run_docker_container_events] at h'
                  simp at h'
                  simp [stageEv, h']
              · exact h5 e h
          | ok u5 =>
              intro e he
              rcases List.mem_append.mp he with h | h
              · rcases List.mem_append.mp h with h' | h'
                · rcases List.mem_append.mp h' with h'' | h''
                  · rcases List.mem_append.mp h'' with h3 | h3
                    · exact h1 e h3
                    · rw [pull_docker_image_events] at h3
                      simp at h3
                      simp [stageEv, h3]
                  · rw [inspect_docker_image_events] at h''
                    simp at h''
                    simp [stageEv, h'']
                · rw [run_docker_container_events] at h'
                  simp at h'
                  simp [stageEv, h']
              · exact h5 e h

theorem tryBody_no_cleanup_events (w : DockerWorld) :
    Ev.cleanupCalled ∉ (tryBody w).2 ∧ Ev.stopCmd ∉ (tryBody w).2 ∧
      Ev.rmCmd ∉ (tryBody w).2 := by
  refine ⟨fun h => ?_, fun h => ?_, fun h => ?_⟩ <;>
    · have := tryBody_events w _ h
      simp [stageEv] at this

theorem check_docker_running_events_precise (w : DockerWorld) :
    ∀ e ∈ (check_docker_running w).2,
      e = Ev.checkInfo ∨ e = Ev.startDaemon ∨ e = Ev.sleepDelay := by
  unfold check_docker_running
  split_ifs <;> intro e he <;> simp at he <;> tauto

theorem not_mem_check_events (w : DockerWorld) (e : Ev) (he1 : e ≠ Ev.checkInfo)
    (he2 : e ≠ Ev.startDaemon) (he3 : e ≠ Ev.sleepDelay) :
    e ∉ (check_docker_running w).2 := fun h => by
  rcases check_docker_running_events_precise w e h with h' | h' | h'
  · exact he1 h'
  · exact he2 h'
  · exact he3 h'

theorem check_docker_running_ok (w : DockerWorld)
    (h : w.infoFirst = true ∨ w.infoSecond = true) :
    (check_docker_running w).1 = .ok () := by
  unfold check_docker_running
  rcases h with h | h
  · simp [h]
  · by_cases hf : w.infoFirst <;> simp [hf, h]

theorem check_docker_running_fail (w : DockerWorld) (h1 : w.infoFirst = false)
    (h2 : w.infoSecond = false) :
    check_docker_running w =
      (.error (.sysExit 1), [Ev.checkInfo, Ev.startDaemon, Ev.sleepDelay, Ev.checkInfo]) := by
  unfold check_docker_running
  simp [h1, h2]

/-! ### Claims about the container verifier -/

/-- C2: for every run reaching the pipeline, `cleanup` is invoked exactly
once — on success, fatal failure, and exception paths alike — and the
stop/remove commands are issued iff the keep-container flag is unset. -/
theorem C2_cleanup_exactly_once (w : DockerWorld) (keep_container : Bool) :
    (dockerMain w keep_container).2.count Ev.cleanupCalled = 1 ∧
    (Ev.stopCmd ∈ (dockerMain w keep_container).2 ↔ keep_container = false) ∧
    (Ev.rmCmd ∈ (dockerMain w keep_container).2 ↔ keep_container = false) := by
  have h := tryBody_no_cleanup_events w
  have htr : (dockerMain w keep_container).2 =
      (tryBody w).2 ++ cleanup keep_container := rfl
  refine ⟨?_, ?_, ?_⟩
  · rw [htr, List.count_append, List.count_eq_zero.mpr h.1]
    cases keep_container <;> decide
  · rw [htr, List.mem_append]
    simp only [h.2.1, false_or]
    cases keep_container <;> simp [cleanup]
  · rw [htr, List.mem_append]
    simp only [h.2.2, false_or]
    cases keep_container <;> simp [cleanup]

/-- C2 witness: a successful run without the keep flag cleans up once and
issues the stop command. -/
theorem C2_cleanup_exactly_once_witness :
    (dockerMain okWorld false).2.count Ev.cleanupCalled = 1 ∧
      Ev.stopCmd ∈ (dockerMain okWorld false).2 :=
  ⟨(C2_cleanup_exactly_once okWorld false).1,
   (C2_cleanup_exactly_once okWorld false).2.1.mpr rfl⟩

/-- C3: when the fatal stages (readiness, pull, inspect, run, log fetch)
all succeed, the exit code is 0 regardless of the log content, and every
matched error pattern — "Unhandled exception" included — only yields a
printed warning. -/
theorem C3_log_warnings_only (w : DockerWorld) (keep_container : Bool)
    (h1 : w.infoFirst = true ∨ w.infoSecond = true) (h2 : w.pullOk = true)
    (h3 : w.inspectCmdOk = true) (h4 : w.inspectParseOk = true)
    (h5 : w.inspectInfo ≠ []) (h6 : w.runOk = true) (h7 : w.logsCmdOk = true) :
    (dockerMain w keep_container).1 = 0 ∧
    ∀ p ∈ error_patterns, strContains w.logs p = true →
      Ev.warn p ∈ (dockerMain w keep_container).2 := by
  have hc := check_docker_running_ok w h1
  have h5' : w.inspectInfo.isEmpty = false := by
    cases hl : w.inspectInfo with
    | nil => exact absurd hl h5
    | cons a t => rfl
  have htb : tryBody w =
      (.ok 0, (check_docker_running w).2 ++ [Ev.pull] ++ [Ev.inspect] ++
        [Ev.runContainer] ++
        (Ev.logsFetch ::
          (error_patterns.filter (fun q => strContains w.logs q)).map Ev.warn)) := by
    unfold tryBody
    rw [hc]
    simp [pull_docker_image, inspect_docker_image, run_docker_container,
      check_container_logs, h2, h3, h4, h5', h6, h7]
  have hm : dockerMain w keep_container =
      (0, ((check_docker_running w).2 ++ [Ev.pull] ++ [Ev.inspect] ++
        [Ev.runContainer] ++
        (Ev.logsFetch ::
          (error_patterns.filter (fun q => strContains w.logs q)).map Ev.warn)) ++
        cleanup keep_container) := by
    unfold dockerMain
    rw [htb]
  refine ⟨by rw [hm], fun p hp hcont => ?_⟩
  rw [hm]
  simp only [List.mem_append, List.mem_cons, List.mem_map, List.mem_filter]
  exact Or.inl (Or.inr (Or.inr ⟨p, ⟨hp, hcont⟩, rfl⟩))

/-- C3 witness: a healthy run whose logs contain "Unhandled exception"
still exits 0 and prints the warning. -/
theorem C3_log_warnings_only_witness :
    (dockerMain okWorld false).1 = 0 ∧
      Ev.warn "Unhandled exception" ∈ (dockerMain okWorld false).2 :=
  ⟨(C3_log_warnings_only okWorld false (Or.inl rfl) rfl rfl rfl (by decide) rfl rfl).1,
   (C3_log_warnings_only okWorld false (Or.inl rfl) rfl rfl rfl (by decide) rfl rfl).2
     "Unhandled exception" (by decide) (by decide)⟩

/-- C5: if the runtime is unreachable on the first query, the verifier
starts the daemon, sleeps, re-checks exactly once (two readiness queries in
total), and when the re-check also fails it exits 1 without ever reaching
the pull step. -/
theorem C5_readiness_fatal (w : DockerWorld) (keep_container : Bool)
    (h1 : w.infoFirst = false) (h2 : w.infoSecond = false) :
    (dockerMain w keep_container).1 = 1 ∧
    Ev.pull ∉ (dockerMain w keep_container).2 ∧
    Ev.startDaemon ∈ (dockerMain w keep_container).2 ∧
    Ev.sleepDelay ∈ (dockerMain w keep_container).2 ∧
    (dockerMain w keep_container).2.count Ev.checkInfo = 2 := by
  have hc := check_docker_running_fail w h1 h2
  have htb : tryBody w =
      (.error (.sysExit 1),
       [Ev.checkInfo, Ev.startDaemon, Ev.sleepDelay, Ev.checkInfo]) := by
    unfold tryBody
    simp [hc]
  have hm : dockerMain w keep_container =
      (1, [Ev.checkInfo, Ev.startDaemon, Ev.sleepDelay, Ev.checkInfo] ++
        cleanup keep_container) := by
    unfold dockerMain
    rw [htb]
  rw [hm]
  cases keep_container <;>
    exact ⟨rfl, by decide, by decide, by decide, by decide⟩

/-- C5 witness: with the runtime down twice, the run exits 1 and never
pulls. -/
theorem C5_readiness_fatal_witness :
    (dockerMain downWorld false).1 = 1 ∧
      Ev.pull ∉ (dockerMain downWorld false).2 :=
  ⟨(C5_readiness_fatal downWorld false rfl rfl).1,
   (C5_readiness_fatal downWorld false rfl rfl).2.1⟩

/-- C8: a failed pull and an empty inspect result are each fatal: exit code
1, no later stage runs, and cleanup still runs exactly once. -/
theorem C8_pull_inspect_fatal (w : DockerWorld) (keep_container : Bool)
    (hready : w.infoFirst = true ∨ w.infoSecond = true) :
    (w.pullOk = false →
       (dockerMain w keep_container).1 = 1 ∧
       Ev.inspect ∉ (dockerMain w keep_container).2 ∧
       Ev.runContainer ∉ (dockerMain w keep_container).2 ∧
       Ev.logsFetch ∉ (dockerMain w keep_container).2 ∧
       (dockerMain w keep_container).2.count Ev.cleanupCalled = 1) ∧
    (w.pullOk = true → w.inspectCmdOk = true → w.inspectParseOk = true →
     w.inspectInfo = [] →
       (dockerMain w keep_container).1 = 1 ∧
       Ev.runContainer ∉ (dockerMain w keep_container).2 ∧
       Ev.logsFetch ∉ (dockerMain w keep_container).2 ∧
       (dockerMain w keep_container).2.count Ev.cleanupCalled = 1) := by
  have hc := check_docker_running_ok w hready
  constructor
  · intro hp
    have htb : tryBody w =
        (.error (.sysExit 1), (check_docker_running w).2 ++ [Ev.pull]) := by
      unfold tryBody
      rw [hc]
      simp [pull_docker_image, hp]
    have hm : dockerMain w keep_container =
        (1, ((check_docker_running w).2 ++ [Ev.pull]) ++ cleanup keep_container) := by
      unfold dockerMain
      rw [htb]
    rw [hm]
    refine ⟨rfl, ?_, ?_, ?_, ?_⟩
    · simp only [List.mem_append]
      push_neg
      exact ⟨⟨not_mem_check_events w _ (by simp) (by simp) (by simp), by simp⟩,
        by cases keep_container <;> decide⟩
    · simp only [List.mem_append]
      push_neg
      exact ⟨⟨not_mem_check_events w _ (by simp) (by simp) (by simp), by simp⟩,
        by cases keep_container <;> decide⟩
    · simp only [List.mem_append]
      push_neg
      exact ⟨⟨not_mem_check_events w _ (by simp) (by simp) (by simp), by simp⟩,
        by cases keep_container <;> decide⟩
    · rw [List.count_append, List.count_append,
        List.count_eq_zero.mpr (not_mem_check_events w _ (by simp) (by simp) (by simp))]
      cases keep_container <;> decide
  · intro hp hic hipo hinfo
    have hie : w.inspectInfo.isEmpty = true := by rw [hinfo]; rfl
    have htb : tryBody w =
        (.error (.sysExit 1),
         (check_docker_running w).2 ++ [Ev.pull] ++ [Ev.inspect]) := by
      unfold tryBody
      rw [hc]
      simp [pull_docker_image, inspect_docker_image, hp, hic, hipo, hie]
    have hm : dockerMain w keep_container =
        (1, ((check_docker_running w).2 ++ [Ev.pull] ++ [Ev.inspect]) ++
          cleanup keep_container) := by
      unfold dockerMain
      rw [htb]
    rw [hm]
    refine ⟨rfl, ?_, ?_, ?_⟩
    · simp only [List.mem_append]
      push_neg
      exact ⟨⟨⟨not_mem_check_events w _ (by simp) (by simp) (by simp), by simp⟩,
        by simp⟩, by cases keep_container <;> decide⟩
    · simp only [List.mem_append]
      push_neg
      exact ⟨⟨⟨not_mem_check_events w _ (by simp) (by simp) (by simp), by simp⟩,
        by simp⟩, by cases keep_container <;> decide⟩
    · rw [List.count_append, List.count_append, List.count_append,
        List.count_eq_zero.mpr (not_mem_check_events w _ (by simp) (by simp) (by simp))]
      cases keep_container <;> decide

/-- C8 witness: concrete runs with a failed pull and with an empty inspect
both exit 1. -/
theorem C8_pull_inspect_fatal_witness :
    (dockerMain pullFailWorld false).1 = 1 ∧
      (dockerMain emptyInspectWorld false).1 = 1 :=
  ⟨((C8_pull_inspect_fatal pullFailWorld false (Or.inl rfl)).1 rfl).1,
   ((C8_pull_inspect_fatal emptyInspectWorld false (Or.inl rfl)).2
      rfl rfl rfl rfl).1⟩

end VerifyDocker
